import Mathlib

/-!
Shallow embedding of the deterministic rule-based workout planner
(`deterministic_agent` in `CoT.py`) and verification of its specification.

Python strings become Lean `String`; the case-insensitive substring test
`needle in hay.lower()` is modelled on the underlying character lists with an
explicit ASCII lower-casing; the Python `dict` used for the weekly schedule is
modelled as a list of key/value pairs in insertion order (all inserted keys
are distinct, so no overwriting can occur).
-/

/-- ASCII lower-casing of one character, as Python `str.lower` acts on the
ASCII inputs used by the program. -/
def lower_char (c : Char) : Char :=
  if 65 ≤ c.toNat ∧ c.toNat ≤ 90 then Char.ofNat (c.toNat + 32) else c

/-- Lower-cased character list of a string (`s.lower()`). -/
def lower_chars (s : String) : List Char := s.data.map lower_char

/-- `leads_with n h` holds when `n` occurs at the very front of `h`. -/
def leads_with : List Char → List Char → Bool
  | [], _ => true
  | _ :: _, [] => false
  | a :: as, b :: bs => a == b && leads_with as bs

/-- `has_sub n h` holds when `n` occurs contiguously somewhere in `h`. -/
def has_sub (needle : List Char) : List Char → Bool
  | [] => needle.isEmpty
  | b :: bs => leads_with needle (b :: bs) || has_sub needle bs

/-- Case-insensitive substring test: Python `needle in hay.lower()` (with
`needle` already lower case in the source, lowering it again is harmless). -/
def containsCI (needle hay : String) : Bool :=
  has_sub (lower_chars needle) (lower_chars hay)

/-- The `FitnessUser` profile class of `CoT.py`. -/
structure FitnessUser where
  id : String
  age : Int
  fitness_level : Int
  goals : List String
  preferences : List String
  limitations : List String
deriving DecidableEq

/-- One value of the weekly-schedule dictionary built by
`deterministic_agent`: the per-day workout descriptor. -/
structure WorkoutDescriptor where
  type : String
  duration : Nat
  intensity : String
  description : String
deriving DecidableEq

/-- The `days` list of `CoT.py`, Monday first. -/
def days : List String :=
  ["Monday", "Tuesday", "Wednesday", "Thursday", "Friday", "Saturday", "Sunday"]

/-- The four base parameters chosen by the fitness-level `if` chain of
`deterministic_agent` (lines 45-59 of `CoT.py`). -/
structure TierParams where
  workout_days : Nat
  base_intensity : String
  base_duration : Nat
  workout_day_indices : List Nat
deriving DecidableEq

/-- Stage A: level-based parameterization (`CoT.py` lines 45-59). -/
def tier_params (fitness_level : Int) : TierParams :=
  if fitness_level ≤ 1 then
    ⟨3, "light", 30, [0, 2, 4]⟩
  else if fitness_level ≤ 3 then
    ⟨4, "moderate", 45, [0, 2, 4, 6]⟩
  else
    ⟨5, "high", 60, [0, 1, 3, 5, 6]⟩

/-- `any("time" in limitation.lower() for limitation in user.limitations)`. -/
def has_time_limitation (user : FitnessUser) : Bool :=
  user.limitations.any (fun limitation => containsCI "time" limitation)

/-- `any("joint" in limitation.lower() for limitation in user.limitations)`. -/
def has_joint_limitation (user : FitnessUser) : Bool :=
  user.limitations.any (fun limitation => containsCI "joint" limitation)

/-- Stage B: `base_duration = min(base_duration, 30)` when a "time"
limitation is present (`CoT.py` line 63). -/
def adjusted_duration (user : FitnessUser) : Nat :=
  if has_time_limitation user then
    min (tier_params user.fitness_level).base_duration 30
  else
    (tier_params user.fitness_level).base_duration

/-- Stage B: `workout_days = min(workout_days, 4)` when a "time" limitation
is present (`CoT.py` line 64). -/
def adjusted_workout_days (user : FitnessUser) : Nat :=
  if has_time_limitation user then
    min (tier_params user.fitness_level).workout_days 4
  else
    (tier_params user.fitness_level).workout_days

/-- Stage B: downgrade "high" to "moderate" when a "joint" limitation is
present (`CoT.py` lines 66-68). -/
def adjusted_intensity (user : FitnessUser) : String :=
  if has_joint_limitation user &&
      (tier_params user.fitness_level).base_intensity == "high" then
    "moderate"
  else
    (tier_params user.fitness_level).base_intensity

/-- The `goal_to_workout` dictionary of `CoT.py`, in insertion order. -/
def goal_to_workout : List (String × List String) :=
  [("weight management", ["cardio", "HIIT", "strength training"]),
   ("stress reduction", ["yoga", "active recovery", "cardio"]),
   ("strength building", ["strength training", "HIIT"]),
   ("joint mobility", ["flexibility", "swimming", "yoga"]),
   ("endurance", ["cardio", "swimming"]),
   ("muscle gain", ["strength training"]),
   ("flexibility", ["yoga", "flexibility"])]

/-- The nested goal loop of `CoT.py` lines 82-86: every table entry whose key
occurs in a goal string contributes its whole workout list, in order. -/
def goal_workout_types (user : FitnessUser) : List String :=
  user.goals.flatMap (fun goal =>
    goal_to_workout.flatMap (fun gw => if containsCI gw.1 goal then gw.2 else []))

/-- Fallback list used when no goal matched (`CoT.py` lines 89-90). -/
def default_workout_types : List String :=
  ["cardio", "strength training", "flexibility"]

/-- `list(dict.fromkeys(xs))`: stable de-duplication keeping the first
occurrence of each element, modelled by the key-insertion fold. -/
def dedupFirst (l : List String) : List String :=
  l.foldl (fun acc x => if x ∈ acc then acc else acc ++ [x]) []

/-- Stable de-duplication exactly as the specification words it
("duplicates are removed while preserving first-occurrence order"): keep
the head, drop its later duplicates, recurse. Stated only to compare the
program's `dedupFirst` against the specification. -/
def spec_stable_dedup : List String → List String
  | [] => []
  | x :: xs => x :: spec_stable_dedup (xs.filter (fun y => !(y == x)))
termination_by l => l.length
decreasing_by
  simp only [List.length_cons]
  exact Nat.lt_succ_of_le (List.length_filter_le _ _)

/-- The activity-type list after goal processing, fallback and
de-duplication (`CoT.py` lines 82-93), before preferences are scanned. -/
def deduped_workout_types (user : FitnessUser) : List String :=
  dedupFirst
    (if (goal_workout_types user).isEmpty then default_workout_types
     else goal_workout_types user)

/-- One iteration of the preference loop of `CoT.py` lines 96-102: the
`if`/`elif` chain may append at most one activity type. -/
def apply_preference (types : List String) (pref : String) : List String :=
  if containsCI "swimming" pref && !(types.contains "swimming") then
    types ++ ["swimming"]
  else if containsCI "outdoor" pref && !(types.contains "cardio") then
    types ++ ["cardio"]
  else if containsCI "home" pref && !(types.contains "yoga") &&
      !(types.contains "HIIT") then
    types ++ ["HIIT"]
  else
    types

/-- The final `user_workout_types` list after the preference loop. -/
def user_workout_types (user : FitnessUser) : List String :=
  user.preferences.foldl apply_preference (deduped_workout_types user)

/-- The `workout_descriptions` dictionary of `CoT.py`. -/
def workout_descriptions : List (String × String) :=
  [("strength training", "Focus on building muscle with weights or bodyweight exercises"),
   ("cardio", "Aerobic exercises to improve heart health and endurance"),
   ("flexibility", "Stretching exercises to improve range of motion"),
   ("HIIT", "High-intensity interval training for efficient calorie burn"),
   ("active recovery", "Light activity to promote recovery and reduce soreness"),
   ("yoga", "Combination of strength, flexibility, and mindfulness"),
   ("swimming", "Low-impact full-body workout in water")]

/-- `workout_descriptions.get(workout_type, "Custom workout")`. -/
def description_for (workout_type : String) : String :=
  ((workout_descriptions.find? (fun p => p.1 == workout_type)).map Prod.snd).getD
    "Custom workout"

/-- Per-day intensity adjustment (`CoT.py` lines 121-125). -/
def day_intensity (workout_type base_intensity : String) : String :=
  if workout_type == "active recovery" && base_intensity != "light" then
    "light"
  else if workout_type == "HIIT" && base_intensity == "light" then
    "moderate"
  else
    base_intensity

/-- Per-day duration adjustment (`CoT.py` lines 128-132). -/
def day_duration (workout_type : String) (base_duration : Nat) : Nat :=
  if workout_type == "HIIT" && base_duration > 30 then 30
  else if workout_type == "yoga" && base_duration < 45 then 45
  else base_duration

/-- Body of the schedule loop (`CoT.py` lines 116-139) at index `i`: the
day-name key and the workout descriptor stored under it. -/
def schedule_day (user : FitnessUser) (i : Nat) : String × WorkoutDescriptor :=
  let workout_type :=
    (user_workout_types user).getD (i % (user_workout_types user).length) ""
  (days.getD ((tier_params user.fitness_level).workout_day_indices.getD i 0) "",
   ⟨workout_type,
    day_duration workout_type (adjusted_duration user),
    day_intensity workout_type (adjusted_intensity user),
    description_for workout_type⟩)

/-- The deterministic rule-based planner: the `weekly_schedule` dictionary
returned by `deterministic_agent` of `CoT.py`, as a key/descriptor list in
insertion order. -/
def deterministic_agent (user : FitnessUser) : List (String × WorkoutDescriptor) :=
  (List.range
      (min (adjusted_workout_days user)
        (tier_params user.fitness_level).workout_day_indices.length)).map
    (schedule_day user)

/-- The intermediate-tier scenario profile of §8 of the specification. -/
def scenario_user_1 : FitnessUser :=
  ⟨"U001", 35, 2, ["weight management", "stress reduction"],
    ["home workouts"], ["time constraints"]⟩

/-- The advanced-tier scenario profile of §8 of the specification. -/
def scenario_user_2 : FitnessUser :=
  ⟨"U002", 55, 5, ["muscle gain"], [], ["joint stiffness"]⟩

/-- A time-limited intermediate profile whose first activity type is yoga. -/
def time_yoga_user : FitnessUser :=
  ⟨"U003", 30, 2, ["stress reduction"], [], ["time constraints"]⟩

/-- An advanced profile with a joint limitation. -/
def joint_user : FitnessUser :=
  ⟨"U004", 40, 5, ["muscle gain"], [], ["joint pain"]⟩

/-- A profile whose only goal matches no entry of `goal_to_workout`. -/
def unknown_goal_user : FitnessUser :=
  ⟨"U005", 30, 3, ["unknown goal xyz"], [], []⟩

/-- An advanced profile with a time limitation. -/
def advanced_time_user : FitnessUser :=
  ⟨"U006", 30, 5, ["endurance"], [], ["limited time"]⟩

/-! ### Helper lemmas -/

/-- One preference iteration only ever appends, and appends at most one
activity type. -/
theorem apply_preference_extends (types : List String) (pref : String) :
    ∃ added, apply_preference types pref = types ++ added ∧ added.length ≤ 1 := by
  unfold apply_preference
  split
  · exact ⟨["swimming"], rfl, Nat.le_refl 1⟩
  · split
    · exact ⟨["cardio"], rfl, Nat.le_refl 1⟩
    · split
      · exact ⟨["HIIT"], rfl, Nat.le_refl 1⟩
      · exact ⟨[], (List.append_nil types).symm, Nat.zero_le 1⟩

/-- The preference loop cannot empty a non-empty type list. -/
theorem foldl_apply_preference_ne_nil (prefs : List String) :
    ∀ types : List String, types ≠ [] →
      prefs.foldl apply_preference types ≠ [] := by
  induction prefs with
  | nil => intro types h; simpa using h
  | cons p ps ih =>
    intro types h
    simp only [List.foldl_cons]
    apply ih
    obtain ⟨added, heq, _⟩ := apply_preference_extends types p
    rw [heq]
    intro hcon
    exact h (List.append_eq_nil.mp hcon).1

/-- Per-day intensity adjustment can return "high" only when given "high". -/
theorem day_intensity_eq_high (t b : String) (h : day_intensity t b = "high") :
    b = "high" := by
  unfold day_intensity at h
  split at h
  · exact absurd h (by decide)
  · split at h
    · exact absurd h (by decide)
    · exact h

/-- Per-day duration adjustment keeps a 30-minute bound except on yoga days,
which are floored to 45. -/
theorem day_duration_le (t : String) (b : Nat) (hb : b ≤ 30) :
    day_duration t b ≤ 30 ∨ (t = "yoga" ∧ day_duration t b = 45) := by
  unfold day_duration
  split
  · exact Or.inl (Nat.le_refl 30)
  · split
    · next hcond =>
      right
      refine ⟨?_, rfl⟩
      have := (Bool.and_eq_true _ _).mp hcond
      exact eq_of_beq this.1
    · exact Or.inl hb

/-- The activity type stored for day index `i`, by definition. -/
theorem schedule_day_type (user : FitnessUser) (i : Nat) :
    (schedule_day user i).2.type =
      (user_workout_types user).getD
        (i % (user_workout_types user).length) "" := rfl

/-- The duration stored for day index `i`, by definition. -/
theorem schedule_day_duration (user : FitnessUser) (i : Nat) :
    (schedule_day user i).2.duration =
      day_duration
        ((user_workout_types user).getD (i % (user_workout_types user).length) "")
        (adjusted_duration user) := rfl

/-- The intensity stored for day index `i`, by definition. -/
theorem schedule_day_intensity (user : FitnessUser) (i : Nat) :
    (schedule_day user i).2.intensity =
      day_intensity
        ((user_workout_types user).getD (i % (user_workout_types user).length) "")
        (adjusted_intensity user) := rfl

/-- The schedule's key list, written as a map over the day-index range. -/
theorem keys_eq (user : FitnessUser) :
    (deterministic_agent user).map Prod.fst =
      (List.range (min (adjusted_workout_days user)
          (tier_params user.fitness_level).workout_day_indices.length)).map
        (fun i => days.getD
          ((tier_params user.fitness_level).workout_day_indices.getD i 0) "") := by
  unfold deterministic_agent
  rw [List.map_map]
  rfl

/-- Full description of the key-insertion fold behind `dedupFirst`. -/
theorem dedup_loop_spec (l : List String) : ∀ acc : List String,
    ∃ t, l.foldl (fun acc x => if x ∈ acc then acc else acc ++ [x]) acc = acc ++ t
      ∧ t.Sublist l ∧ t.Nodup ∧ (∀ x ∈ t, x ∉ acc)
      ∧ (∀ x ∈ l, x ∈ acc ∨ x ∈ t) := by
  induction l with
  | nil =>
    intro acc
    exact ⟨[], by simp, List.Sublist.refl _, List.nodup_nil, by simp, by simp⟩
  | cons x xs ih =>
    intro acc
    by_cases hx : x ∈ acc
    · obtain ⟨t, h1, h2, h3, h4, h5⟩ := ih acc
      refine ⟨t, ?_, h2.cons x, h3, h4, ?_⟩
      · simpa [hx] using h1
      · intro y hy
        rcases List.mem_cons.mp hy with rfl | hy
        · exact Or.inl hx
        · exact h5 y hy
    · obtain ⟨t, h1, h2, h3, h4, h5⟩ := ih (acc ++ [x])
      refine ⟨x :: t, ?_, h2.cons₂ x, ?_, ?_, ?_⟩
      · rw [List.foldl_cons, if_neg hx, h1]
        simp
      · rw [List.nodup_cons]
        refine ⟨fun hxt => ?_, h3⟩
        exact h4 x hxt (by simp)
      · intro y hy
        rcases List.mem_cons.mp hy with rfl | hy
        · exact hx
        · intro hya
          exact h4 y hy (List.mem_append_left _ hya)
      · intro y hy
        rcases List.mem_cons.mp hy with rfl | hy
        · exact Or.inr (List.mem_cons_self _ _)
        · rcases h5 y hy with hya | hyt
          · rcases List.mem_append.mp hya with h | h
            · exact Or.inl h
            · exact Or.inr (List.mem_cons.mpr (Or.inl (List.mem_singleton.mp h)))
          · exact Or.inr (List.mem_cons_of_mem _ hyt)

/-- `dedupFirst` keeps the input's relative order. -/
theorem dedupFirst_sublist (l : List String) : (dedupFirst l).Sublist l := by
  obtain ⟨t, h1, h2, _⟩ := dedup_loop_spec l []
  unfold dedupFirst
  rw [h1, List.nil_append]
  exact h2

/-- `dedupFirst` removes all duplicates. -/
theorem dedupFirst_nodup (l : List String) : (dedupFirst l).Nodup := by
  obtain ⟨t, h1, _, h3, _⟩ := dedup_loop_spec l []
  unfold dedupFirst
  rw [h1, List.nil_append]
  exact h3

/-- `dedupFirst` removes nothing but duplicates. -/
theorem mem_dedupFirst (l : List String) (x : String) :
    x ∈ dedupFirst l ↔ x ∈ l := by
  obtain ⟨t, h1, h2, _, _, h5⟩ := dedup_loop_spec l []
  unfold dedupFirst
  rw [h1, List.nil_append]
  constructor
  · exact fun hx => h2.subset hx
  · intro hx
    rcases h5 x hx with h | h
    · exact absurd h (List.not_mem_nil x)
    · exact h

/-- `dedupFirst` of a non-empty list is non-empty. -/
theorem dedupFirst_ne_nil (l : List String) (h : l ≠ []) :
    dedupFirst l ≠ [] := by
  obtain ⟨x, xs, rfl⟩ := List.exists_cons_of_ne_nil h
  have hx : x ∈ dedupFirst (x :: xs) :=
    (mem_dedupFirst _ x).mpr (List.mem_cons_self _ _)
  exact List.ne_nil_of_mem hx

/-- The key-insertion fold computes the spec's stable de-duplication of the
residual elements not yet seen. -/
theorem dedup_loop_filter (l : List String) : ∀ acc : List String,
    l.foldl (fun acc x => if x ∈ acc then acc else acc ++ [x]) acc =
      acc ++ spec_stable_dedup (l.filter (fun y => decide (y ∉ acc))) := by
  induction l with
  | nil => intro acc; simp [spec_stable_dedup]
  | cons x xs ih =>
    intro acc
    by_cases hx : x ∈ acc
    · rw [List.foldl_cons, if_pos hx, ih acc, List.filter_cons]
      simp [hx]
    · rw [List.foldl_cons, if_neg hx, ih (acc ++ [x]), List.filter_cons]
      have hd : (decide (x ∉ acc)) = true := by simp [hx]
      rw [hd, if_pos rfl]
      simp only [spec_stable_dedup, List.filter_filter]
      have hf : List.filter (fun a => !(a == x) && decide (a ∉ acc)) xs =
          List.filter (fun y => decide (y ∉ acc ++ [x])) xs := by
        apply List.filter_congr
        intro y _
        by_cases h1 : y ∈ acc <;> by_cases h2 : y = x <;>
          simp [h1, h2, List.mem_append]
      rw [hf, List.append_assoc, List.singleton_append]

/-- The program's stable de-duplication agrees with the spec's wording. -/
theorem dedupFirst_eq_spec (l : List String) :
    dedupFirst l = spec_stable_dedup l := by
  have h := dedup_loop_filter l []
  simp only [List.nil_append] at h
  unfold dedupFirst
  rw [h]
  congr 1
  apply List.filter_eq_self.mpr
  intro y _
  simp

/-! ### Claims -/

/-- C1 counterexample: for the time-limited profile `time_yoga_user` the
claim's conclusion fails: its Monday yoga workout is floored to 45 minutes,
exceeding the claimed 30-minute cap. -/
theorem time_cap_duration_counterexample :
    has_time_limitation time_yoga_user = true ∧
    ∃ e ∈ deterministic_agent time_yoga_user, ¬ e.2.duration ≤ 30 := by
  decide

/-- C1 (amended): for every Profile with a case-insensitive "time"
limitation, every workout day lasts at most 30 minutes except yoga days,
which are floored to exactly 45 minutes, and there are at most 4 workout
days. -/
theorem time_limitation_caps_duration_and_days (user : FitnessUser)
    (h : has_time_limitation user = true) :
    (∀ e ∈ deterministic_agent user,
        e.2.duration ≤ 30 ∨ (e.2.type = "yoga" ∧ e.2.duration = 45))
    ∧ (deterministic_agent user).length ≤ 4 := by
  have hd : adjusted_duration user ≤ 30 := by
    unfold adjusted_duration
    rw [if_pos h]
    exact Nat.min_le_right _ _
  constructor
  · intro e he
    obtain ⟨i, _, rfl⟩ := List.mem_map.mp he
    rw [schedule_day_duration, schedule_day_type]
    exact day_duration_le _ _ hd
  · unfold deterministic_agent
    rw [List.length_map, List.length_range]
    have h4 : adjusted_workout_days user ≤ 4 := by
      unfold adjusted_workout_days
      rw [if_pos h]
      exact Nat.min_le_right _ _
    exact le_trans (Nat.min_le_left _ _) h4

/-- C1 witness: the amended cap theorem applied to the concrete
time-limited scenario profile. -/
theorem time_limitation_caps_duration_and_days_witness :
    has_time_limitation scenario_user_1 = true ∧
    ((∀ e ∈ deterministic_agent scenario_user_1,
        e.2.duration ≤ 30 ∨ (e.2.type = "yoga" ∧ e.2.duration = 45))
      ∧ (deterministic_agent scenario_user_1).length ≤ 4) :=
  ⟨by decide, time_limitation_caps_duration_and_days scenario_user_1 (by decide)⟩

/-- C2 counterexample: in the §8 intermediate scenario, not every day's
duration is ≤ 30 — Sunday's yoga day is floored to 45 minutes. -/
theorem scenario_intermediate_counterexample :
    ∃ e ∈ deterministic_agent scenario_user_1, ¬ e.2.duration ≤ 30 := by
  decide

/-- C2 (amended): the §8 intermediate scenario yields exactly the four days
Monday/Wednesday/Friday/Sunday with activity types assigned round-robin
from [cardio, HIIT, strength training, yoga, active recovery]; every
duration is 30 except the Sunday yoga day, which is floored to 45. -/
theorem scenario_intermediate_schedule :
    deterministic_agent scenario_user_1 =
      [("Monday", ⟨"cardio", 30, "moderate",
          "Aerobic exercises to improve heart health and endurance"⟩),
       ("Wednesday", ⟨"HIIT", 30, "moderate",
          "High-intensity interval training for efficient calorie burn"⟩),
       ("Friday", ⟨"strength training", 30, "moderate",
          "Focus on building muscle with weights or bodyweight exercises"⟩),
       ("Sunday", ⟨"yoga", 45, "moderate",
          "Combination of strength, flexibility, and mindfulness"⟩)]
    ∧ user_workout_types scenario_user_1 =
        ["cardio", "HIIT", "strength training", "yoga", "active recovery"] := by
  decide

/-- C3: tier bucketing is total and exhaustive with inclusive lower
boundaries: level ≤ 1 gives 3 light 30-minute days on Mon/Wed/Fri, level 2
or 3 gives 4 moderate 45-minute days on Mon/Wed/Fri/Sun, and level ≥ 4
gives 5 high 60-minute days on Mon/Tue/Thu/Sat/Sun. -/
theorem tier_bucketing_total (level : Int) :
    (level ≤ 1 ∨ level = 2 ∨ level = 3 ∨ 4 ≤ level)
    ∧ (level ≤ 1 →
        tier_params level = ⟨3, "light", 30, [0, 2, 4]⟩ ∧
        (tier_params level).workout_day_indices.map (fun i => days.getD i "") =
          ["Monday", "Wednesday", "Friday"])
    ∧ ((level = 2 ∨ level = 3) →
        tier_params level = ⟨4, "moderate", 45, [0, 2, 4, 6]⟩ ∧
        (tier_params level).workout_day_indices.map (fun i => days.getD i "") =
          ["Monday", "Wednesday", "Friday", "Sunday"])
    ∧ (4 ≤ level →
        tier_params level = ⟨5, "high", 60, [0, 1, 3, 5, 6]⟩ ∧
        (tier_params level).workout_day_indices.map (fun i => days.getD i "") =
          ["Monday", "Tuesday", "Thursday", "Saturday", "Sunday"]) := by
  refine ⟨by omega, ?_, ?_, ?_⟩
  · intro h
    have ht : tier_params level = ⟨3, "light", 30, [0, 2, 4]⟩ := by
      unfold tier_params
      rw [if_pos h]
    exact ⟨ht, by rw [ht]; decide⟩
  · intro h
    have ht : tier_params level = ⟨4, "moderate", 45, [0, 2, 4, 6]⟩ := by
      unfold tier_params
      rw [if_neg (by omega), if_pos (by omega)]
    exact ⟨ht, by rw [ht]; decide⟩
  · intro h
    have ht : tier_params level = ⟨5, "high", 60, [0, 1, 3, 5, 6]⟩ := by
      unfold tier_params
      rw [if_neg (by omega), if_neg (by omega)]
    exact ⟨ht, by rw [ht]; decide⟩

/-- C3 witness: the bucketing theorem applied at level 2. -/
theorem tier_bucketing_total_witness :
    tier_params 2 = ⟨4, "moderate", 45, [0, 2, 4, 6]⟩ :=
  ((tier_bucketing_total 2).2.2.1 (Or.inl rfl)).1

/-- C4: for every Profile with a case-insensitive "joint" limitation and
fitness level ≥ 4 (whose tier base intensity is "high"), no scheduled day
has intensity "high": the base is downgraded to "moderate" and no per-day
rule raises intensity back to "high". -/
theorem joint_limitation_no_high (user : FitnessUser)
    (hj : has_joint_limitation user = true) (hl : 4 ≤ user.fitness_level) :
    ∀ e ∈ deterministic_agent user, e.2.intensity ≠ "high" := by
  have htp : tier_params user.fitness_level = ⟨5, "high", 60, [0, 1, 3, 5, 6]⟩ := by
    unfold tier_params
    rw [if_neg (by omega), if_neg (by omega)]
  have hi : adjusted_intensity user = "moderate" := by
    unfold adjusted_intensity
    rw [htp]
    rw [if_pos (by rw [hj]; rfl)]
  intro e he
  obtain ⟨i, _, rfl⟩ := List.mem_map.mp he
  rw [schedule_day_intensity, hi]
  intro hcon
  have := day_intensity_eq_high _ _ hcon
  exact absurd this (by decide)

/-- C4 witness: the no-high-intensity theorem applied to the concrete
advanced profile with a joint limitation. -/
theorem joint_limitation_no_high_witness :
    (deterministic_agent joint_user).all (fun e => e.2.intensity != "high") = true := by
  rw [List.all_eq_true]
  intro e he
  have h := joint_limitation_no_high joint_user (by decide) (by decide) e he
  simpa using h

/-- C5: the §8 advanced scenario (level 5, goal "muscle gain", limitation
"joint stiffness") yields exactly 5 workout days, every day at intensity
"moderate" and activity type "strength training", round-robin over the
single-element type list. -/
theorem scenario_advanced_joint_schedule :
    (deterministic_agent scenario_user_2).length = 5
    ∧ user_workout_types scenario_user_2 = ["strength training"]
    ∧ ∀ e ∈ deterministic_agent scenario_user_2,
        e.2.intensity = "moderate" ∧ e.2.type = "strength training" := by
  decide

/-- C6: the preference scan is first-match-wins per preference: each
preference is evaluated once against the current type list, appends at most
one type and never removes any; "swimming" preferences append "swimming" if
absent, otherwise "outdoor" preferences append "cardio" if absent,
otherwise "home" preferences append "HIIT" only if both "yoga" and "HIIT"
are absent, and otherwise the list is unchanged. -/
theorem preference_chain_semantics (user : FitnessUser)
    (types : List String) (pref : String) :
    (user_workout_types user =
        user.preferences.foldl apply_preference (deduped_workout_types user))
    ∧ (∃ added, apply_preference types pref = types ++ added ∧ added.length ≤ 1)
    ∧ (containsCI "swimming" pref = true → types.contains "swimming" = false →
        apply_preference types pref = types ++ ["swimming"])
    ∧ (¬(containsCI "swimming" pref = true ∧ types.contains "swimming" = false) →
        containsCI "outdoor" pref = true → types.contains "cardio" = false →
        apply_preference types pref = types ++ ["cardio"])
    ∧ (¬(containsCI "swimming" pref = true ∧ types.contains "swimming" = false) →
        ¬(containsCI "outdoor" pref = true ∧ types.contains "cardio" = false) →
        containsCI "home" pref = true → types.contains "yoga" = false →
        types.contains "HIIT" = false →
        apply_preference types pref = types ++ ["HIIT"])
    ∧ (¬(containsCI "swimming" pref = true ∧ types.contains "swimming" = false) →
        ¬(containsCI "outdoor" pref = true ∧ types.contains "cardio" = false) →
        ¬(containsCI "home" pref = true ∧ types.contains "yoga" = false ∧
            types.contains "HIIT" = false) →
        apply_preference types pref = types) := by
  refine ⟨rfl, apply_preference_extends types pref, ?_, ?_, ?_, ?_⟩
  · intro h1 h2
    have h2' : "swimming" ∉ types := by simpa using h2
    simp [apply_preference, h1, h2']
  · intro hn1 h1 h2
    have hn1' : ¬(containsCI "swimming" pref = true ∧ "swimming" ∉ types) := by
      simpa using hn1
    have h2' : "cardio" ∉ types := by simpa using h2
    simp [apply_preference, hn1', h1, h2']
  · intro hn1 hn2 h1 h2 h3
    have hn1' : ¬(containsCI "swimming" pref = true ∧ "swimming" ∉ types) := by
      simpa using hn1
    have hn2' : ¬(containsCI "outdoor" pref = true ∧ "cardio" ∉ types) := by
      simpa using hn2
    have h2' : "yoga" ∉ types := by simpa using h2
    have h3' : "HIIT" ∉ types := by simpa using h3
    simp [apply_preference, hn1', hn2', h1, h2', h3']
  · intro hn1 hn2 hn3
    have hn1' : ¬(containsCI "swimming" pref = true ∧ "swimming" ∉ types) := by
      simpa using hn1
    have hn2' : ¬(containsCI "outdoor" pref = true ∧ "cardio" ∉ types) := by
      simpa using hn2
    have hn3' : ¬((containsCI "home" pref = true ∧ "yoga" ∉ types) ∧
        "HIIT" ∉ types) := by
      simpa [and_assoc] using hn3
    simp [apply_preference, hn1', hn2', hn3']

/-- C6 witness: a "home" preference against a list containing neither yoga
nor HIIT appends exactly HIIT. -/
theorem preference_chain_semantics_witness :
    apply_preference ["cardio"] "home gym" = ["cardio", "HIIT"] :=
  (preference_chain_semantics scenario_user_2 ["cardio"] "home gym").2.2.2.2.1
    (by decide) (by decide) (by decide) (by decide) (by decide)

/-- C7: after goal processing (and the default fallback) and before
preference appends, the activity-type list is the stable first-occurrence
de-duplication of the concatenated matched goal-table entries: it equals
the spec's stable de-duplication, has no duplicates, and is a sublist of
the raw concatenation (so order is first-occurrence, not sorted). -/
theorem dedup_first_occurrence (user : FitnessUser) :
    deduped_workout_types user =
      spec_stable_dedup
        (if (goal_workout_types user).isEmpty then default_workout_types
         else goal_workout_types user)
    ∧ (deduped_workout_types user).Nodup
    ∧ (deduped_workout_types user).Sublist
        (if (goal_workout_types user).isEmpty then default_workout_types
         else goal_workout_types user) := by
  refine ⟨?_, dedupFirst_nodup _, dedupFirst_sublist _⟩
  unfold deduped_workout_types
  exact dedupFirst_eq_spec _

/-- C8: for every Profile, the schedule's keys are duplicate-free, appear
in Monday-first weekday order (they form a sublist of the canonical day
list), and their number is the limitation-adjusted workout-day count
clamped by the number of designated weekdays. -/
theorem schedule_keys_invariant (user : FitnessUser) :
    ((deterministic_agent user).map Prod.fst).Nodup
    ∧ ((deterministic_agent user).map Prod.fst).Sublist days
    ∧ (deterministic_agent user).length =
        min (adjusted_workout_days user)
          (tier_params user.fitness_level).workout_day_indices.length := by
  have main : ((deterministic_agent user).map Prod.fst).Nodup ∧
      ((deterministic_agent user).map Prod.fst).Sublist days := by
    rw [keys_eq]
    by_cases h1 : user.fitness_level ≤ 1
    · have htp : tier_params user.fitness_level = ⟨3, "light", 30, [0, 2, 4]⟩ := by
        unfold tier_params
        rw [if_pos h1]
      have hwd : adjusted_workout_days user = 3 := by
        unfold adjusted_workout_days
        rw [htp]
        split <;> decide
      rw [htp, hwd]
      decide
    · by_cases h2 : user.fitness_level ≤ 3
      · have htp : tier_params user.fitness_level = ⟨4, "moderate", 45, [0, 2, 4, 6]⟩ := by
          unfold tier_params
          rw [if_neg h1, if_pos h2]
        have hwd : adjusted_workout_days user = 4 := by
          unfold adjusted_workout_days
          rw [htp]
          split <;> decide
        rw [htp, hwd]
        decide
      · have htp : tier_params user.fitness_level = ⟨5, "high", 60, [0, 1, 3, 5, 6]⟩ := by
          unfold tier_params
          rw [if_neg h1, if_neg h2]
        cases ht : has_time_limitation user
        · have hwd : adjusted_workout_days user = 5 := by
            unfold adjusted_workout_days
            rw [ht, htp]
            simp
          rw [htp, hwd]
          decide
        · have hwd : adjusted_workout_days user = 4 := by
            unfold adjusted_workout_days
            rw [ht, htp]
            simp
          rw [htp, hwd]
          decide
  exact ⟨main.1, main.2, by simp [deterministic_agent]⟩

/-- C9: the engine degrades gracefully: when no goal string contains any
canonical goal phrase the pre-round-robin activity-type list is exactly the
default [cardio, strength training, flexibility], and for every Profile the
list used for round-robin indexing is never empty. -/
theorem graceful_default_fallback (user : FitnessUser) :
    ((∀ goal ∈ user.goals, ∀ gw ∈ goal_to_workout, containsCI gw.1 goal = false) →
        deduped_workout_types user = ["cardio", "strength training", "flexibility"])
    ∧ user_workout_types user ≠ [] := by
  constructor
  · intro hnone
    have hg : goal_workout_types user = [] := by
      unfold goal_workout_types
      rw [List.flatMap_eq_nil_iff]
      intro goal hgoal
      rw [List.flatMap_eq_nil_iff]
      intro gw hgw
      rw [hnone goal hgoal gw hgw]
      simp
    unfold deduped_workout_types
    rw [hg]
    decide
  · have h0 : deduped_workout_types user ≠ [] := by
      unfold deduped_workout_types
      cases hE : (goal_workout_types user).isEmpty
      · rw [if_neg (by simp)]
        apply dedupFirst_ne_nil
        intro hc
        rw [hc] at hE
        simp at hE
      · rw [if_pos rfl]
        decide
    unfold user_workout_types
    exact foldl_apply_preference_ne_nil _ _ h0

/-- C9 witness: the graceful-default theorem applied to the concrete
profile whose only goal matches nothing. -/
theorem graceful_default_fallback_witness :
    deduped_workout_types unknown_goal_user =
        ["cardio", "strength training", "flexibility"]
    ∧ user_workout_types unknown_goal_user ≠ [] :=
  ⟨(graceful_default_fallback unknown_goal_user).1 (by decide),
   (graceful_default_fallback unknown_goal_user).2⟩

/-- C10: an advanced Profile (level ≥ 4) with a "time" limitation keeps the
advanced tier's weekday sequence: its 4 workout days are exactly Monday,
Tuesday, Thursday and Saturday, the first four advanced designated
weekdays. -/
theorem advanced_time_day_selection (user : FitnessUser)
    (hl : 4 ≤ user.fitness_level) (ht : has_time_limitation user = true) :
    (deterministic_agent user).map Prod.fst =
      ["Monday", "Tuesday", "Thursday", "Saturday"] := by
  have htp : tier_params user.fitness_level = ⟨5, "high", 60, [0, 1, 3, 5, 6]⟩ := by
    unfold tier_params
    rw [if_neg (by omega), if_neg (by omega)]
  have hwd : adjusted_workout_days user = 4 := by
    unfold adjusted_workout_days
    rw [if_pos ht, htp]
    decide
  rw [keys_eq, htp, hwd]
  decide

/-- C10 witness: the advanced time-capped day-selection theorem applied to
the concrete advanced profile with a time limitation. -/
theorem advanced_time_day_selection_witness :
    (deterministic_agent advanced_time_user).map Prod.fst =
      ["Monday", "Tuesday", "Thursday", "Saturday"] :=
  advanced_time_day_selection advanced_time_user (by decide) (by decide)
